import Mathlib

set_option maxHeartbeats 1000000

/-! Shallow embedding of the M-Pesa STK Push payment core of the
SuperMartConnect server (token cache, STK push initiation, status query,
callback reconciliation, and the transaction history view), together with
proofs about the embedded operations.

JavaScript runtime values that flow through the handlers are modelled by
`JsVal`; phone numbers are modelled as lists of characters because the
handlers manipulate them character by character (regex filtering,
substring).  Asynchronous I/O is modelled by passing the outcome of each
network interaction as an explicit parameter, and the SQLite transaction
store is modelled as a list of rows. -/

/-- JavaScript values as delivered by the JSON body parser, plus
`undefined`, which arises from absent-property accesses. -/
inductive JsVal where
  | undefined
  | jnull
  | jbool (b : Bool)
  | jnum (n : Int)
  | jstr (s : String)
  | jarr (xs : List JsVal)
  | jobj (fields : List (String × JsVal))

/-- JavaScript truthiness of a value (numbers are modelled as integers;
no claim under study depends on floating point). -/
def JsVal.truthy : JsVal → Bool
  | .undefined => false
  | .jnull => false
  | .jbool b => b
  | .jnum n => n != 0
  | .jstr s => s != ""
  | .jarr _ => true
  | .jobj _ => true

/-- Property read `v.k` on a value known not to be `null`/`undefined`:
objects look the key up; every other value yields `undefined`. -/
def jsGetField (v : JsVal) (k : String) : JsVal :=
  match v with
  | .jobj fields => ((fields.find? (fun p => p.1 == k)).map (fun p => p.2)).getD .undefined
  | _ => .undefined

/-- Property read with full JavaScript semantics: reading a property of
`null` or `undefined` throws a TypeError, modelled by `Except.error`. -/
def jsGetProp (v : JsVal) (k : String) : Except Unit JsVal :=
  match v with
  | .undefined => .error ()
  | .jnull => .error ()
  | _ => .ok (jsGetField v k)

/-- Binding a JavaScript value as a SQL parameter: the sqlite driver
stores `undefined` as SQL NULL, which we identify with `jnull`. -/
def sqlBind (v : JsVal) : JsVal :=
  match v with
  | .undefined => .jnull
  | w => w

/-- One row of the `mpesa_transactions` table. -/
structure Txn where
  merchant_request_id : String
  checkout_request_id : String
  phone : List Char
  amount : JsVal
  branch : JsVal
  product : JsVal
  status : String
  result_code : JsVal
  result_desc : JsVal
  mpesa_receipt : JsVal
  completed_at : Option Nat

/-- Whether a bound callback/query identifier matches the stored TEXT
column `merchant_request_id` (SQLite TEXT affinity converts a bound
number to its text form; NULL and other types never match). -/
def idMatches (stored : String) (v : JsVal) : Bool :=
  match v with
  | .jstr s => stored == s
  | .jnum n => stored == toString n
  | _ => false

/-- Status mapping on the callback path:
`resultCode === 0 ? 'completed' : 'failed'` (POST /callback); the strict
equality holds exactly for the number zero. -/
def cbStatusOf (resultCode : JsVal) : String :=
  match resultCode with
  | .jnum n => if n = 0 then "completed" else "failed"
  | _ => "failed"

/-- Status mapping on the poll path:
`queryResponse.ResultCode === 0 ? 'completed' : 'failed'` (POST /stkquery). -/
def queryStatusOf (resultCode : JsVal) : String :=
  match resultCode with
  | .jnum n => if n = 0 then "completed" else "failed"
  | _ => "failed"

/-- Row-level effect of the callback UPDATE statement: rows whose
`merchant_request_id` matches get status, result code, result
description, receipt and completion timestamp overwritten; other rows
are untouched.  There is no guard on the current status. -/
def applyCbUpdate (resultCode resultDesc receipt mid : JsVal) (now : Nat) (t : Txn) : Txn :=
  if idMatches t.merchant_request_id mid then
    { t with status := cbStatusOf resultCode
             result_code := sqlBind resultCode
             result_desc := sqlBind resultDesc
             mpesa_receipt := sqlBind receipt
             completed_at := some now }
  else t

/-- Row-level effect of the stkquery UPDATE statement (same as the
callback update except that no receipt column is written). -/
def applyQueryUpdate (resultCode resultDesc mid : JsVal) (now : Nat) (t : Txn) : Txn :=
  if idMatches t.merchant_request_id mid then
    { t with status := queryStatusOf resultCode
             result_code := sqlBind resultCode
             result_desc := sqlBind resultDesc
             completed_at := some now }
  else t

/-- Store-level effect of POST /stkquery: the UPDATE only runs when the
caller supplied a truthy `merchantRequestID`. -/
def stkqueryUpdateStore (resultCode resultDesc merchantRequestID : JsVal) (now : Nat)
    (store : List Txn) : List Txn :=
  if merchantRequestID.truthy then
    store.map (applyQueryUpdate resultCode resultDesc merchantRequestID now)
  else store

/-- Optional chaining `cm?.Item` from the callback handler. -/
def jsOptItem (cm : JsVal) : JsVal :=
  match cm with
  | .undefined => .undefined
  | .jnull => .undefined
  | v => jsGetField v "Item"

/-- The `|| []` fallback applied to the metadata item list. -/
def jsOrEmptyArr (v : JsVal) : JsVal :=
  if v.truthy then v else .jarr []

/-- Scan of `metaData.find(item => item.Name === name)`: accessing
`item.Name` throws on `null`/`undefined` elements. -/
def scanFindName : List JsVal → String → Except Unit (Option JsVal)
  | [], _ => .ok none
  | x :: rest, name =>
    match jsGetProp x "Name" with
    | .error e => .error e
    | .ok n =>
      match n with
      | .jstr s => if s == name then .ok (some x) else scanFindName rest name
      | _ => scanFindName rest name

/-- The full extraction `metaData.find(item => item.Name === name)?.Value`:
calling `.find` on a non-array throws a TypeError. -/
def metaFind (metaData : JsVal) (name : String) : Except Unit JsVal :=
  match metaData with
  | .jarr xs =>
    match scanFindName xs name with
    | .error e => .error e
    | .ok (some item) => .ok (jsGetField item "Value")
    | .ok none => .ok .undefined
  | _ => .error ()

/-- The `sale-completed` WebSocket event emitted on a successful payment. -/
structure SaleEvent where
  branch : JsVal
  product : JsVal
  total_amount : JsVal
  mpesaReceipt : JsVal

/-- Sale emission of the callback handler: only when `resultCode === 0`,
and only when the SELECT finds a row for the merchant request id. -/
def saleEventFor (resultCode merchantRequestID mpesaReceiptNumber : JsVal)
    (store : List Txn) : Option SaleEvent :=
  match resultCode with
  | .jnum n =>
    if n = 0 then
      match store.find? (fun t => idMatches t.merchant_request_id merchantRequestID) with
      | some t => some ⟨t.branch, t.product, t.amount, mpesaReceiptNumber⟩
      | none => none
    else none
  | _ => none

/-- The acknowledgment JSON sent back to the provider. -/
structure Ack where
  ResultCode : Int
  ResultDesc : String
deriving DecidableEq

/-- The unconditional `{ResultCode: 0, ResultDesc: 'Success'}` body. -/
def successAck : Ack := ⟨0, "Success"⟩

/-- Result of one run of the callback handler. -/
structure CbResult where
  store : List Txn
  sale : Option SaleEvent
  response : Ack

/-- Extraction of the four metadata values (`Amount`,
`MpesaReceiptNumber`, `TransactionDate`, `PhoneNumber`) from
`callback.CallbackMetadata?.Item || []`, in source order; each
`find` can throw. -/
def extractMetaVals (callback : JsVal) : Except Unit (JsVal × JsVal × JsVal × JsVal) :=
  let metaData := jsOrEmptyArr (jsOptItem (jsGetField callback "CallbackMetadata"))
  match metaFind metaData "Amount" with
  | .error e => .error e
  | .ok amount =>
    match metaFind metaData "MpesaReceiptNumber" with
    | .error e => .error e
    | .ok receipt =>
      match metaFind metaData "TransactionDate" with
      | .error e => .error e
      | .ok tdate =>
        match metaFind metaData "PhoneNumber" with
        | .error e => .error e
        | .ok pnum => .ok (amount, receipt, tdate, pnum)

/-- Body of the `try` block of POST /callback: guard on
`Body && Body.stkCallback`, extract identifiers and result fields,
extract the metadata values (which can throw), run the UPDATE, and
compute the sale emission from the post-update store. -/
def callbackTry (bodyField : JsVal) (store : List Txn) (now : Nat) :
    Except Unit (List Txn × Option SaleEvent) :=
  if bodyField.truthy && (jsGetField bodyField "stkCallback").truthy then
    let callback := jsGetField bodyField "stkCallback"
    let merchantRequestID := jsGetField callback "MerchantRequestID"
    let resultCode := jsGetField callback "ResultCode"
    let resultDesc := jsGetField callback "ResultDesc"
    match extractMetaVals callback with
    | .error e => .error e
    | .ok (_amount, mpesaReceiptNumber, _tdate, _pnum) =>
      let newStore := store.map
        (applyCbUpdate resultCode resultDesc mpesaReceiptNumber merchantRequestID now)
      .ok (newStore, saleEventFor resultCode merchantRequestID mpesaReceiptNumber newStore)
  else .ok (store, none)

/-- Completion of POST /callback: a normally completing `try` block
delivers its result, an exception is swallowed leaving the store as it
was; either way the response is `successAck`. -/
def finishCallback (store : List Txn) (r : Except Unit (List Txn × Option SaleEvent)) :
    CbResult :=
  match r with
  | .ok (newStore, sale) => ⟨newStore, sale, successAck⟩
  | .error _ => ⟨store, none, successAck⟩

/-- POST /callback: destructuring `const { Body } = req.body` happens
before the `try` (it throws on a `null`/`undefined` request body, which
the JSON body parser never produces); afterwards both the normal exit of
the `try` block and the `catch` branch answer `successAck`. -/
def handleCallback (reqBody : JsVal) (store : List Txn) (now : Nat) :
    Except Unit CbResult :=
  match reqBody with
  | .undefined => .error ()
  | .jnull => .error ()
  | b => .ok (finishCallback store (callbackTry (jsGetField b "Body") store now))

/-- Transaction store reached after one POST /callback request (the
response aside). -/
def runCallbackStore (reqBody : JsVal) (store : List Txn) (now : Nat) : List Txn :=
  match handleCallback reqBody store now with
  | .ok r => r.store
  | .error _ => store

/-- Response part of one POST /callback request, when one is sent. -/
def callbackResponse (reqBody : JsVal) (store : List Txn) (now : Nat) : Option Ack :=
  (handleCallback reqBody store now).toOption.map CbResult.response

/-- Merchant request id a callback body refers to, read along
`req.body.Body.stkCallback.MerchantRequestID` with non-throwing reads. -/
def callbackMid (reqBody : JsVal) : JsVal :=
  jsGetField (jsGetField (jsGetField reqBody "Body") "stkCallback") "MerchantRequestID"

/-- Process environment, modelled as an association list. -/
def envGet (env : List (String × String)) (k : String) : Option String :=
  (env.find? (fun p => p.1 == k)).map (fun p => p.2)

/-- JavaScript falsiness of `process.env[k]`: unset or the empty string. -/
def envFalsy (env : List (String × String)) (k : String) : Bool :=
  match envGet env k with
  | none => true
  | some v => v == ""

/-- The `process.env[k] || null` idiom. -/
def envOrNull (env : List (String × String)) (k : String) : Option String :=
  match envGet env k with
  | none => none
  | some v => if v == "" then none else some v

/-- The five environment variables `validateEnvVariables` requires. -/
def requiredVars : List String :=
  ["MPESA_CONSUMER_KEY", "MPESA_CONSUMER_SECRET", "MPESA_SHORTCODE",
   "MPESA_PASSKEY", "MPESA_CALLBACK_URL"]

/-- The `configStatus` object built by `validateEnvVariables`. -/
structure ConfigStatus where
  valid : Bool
  missing : List String
  warnings : List String
  shortcode : Option String
  hasValidCredentials : Bool
deriving DecidableEq

/-- Embedding of `validateEnvVariables`: collect the unset required
variables, the placeholder warnings, and derive the validity flags
(`valid` is cleared both when variables are missing and when warnings
are present; `hasValidCredentials` is the same conjunction). -/
def validateEnvVariables (env : List (String × String)) : ConfigStatus :=
  let missing := requiredVars.filter (fun v => envFalsy env v)
  let warnKey := envFalsy env "MPESA_CONSUMER_KEY" ||
    envGet env "MPESA_CONSUMER_KEY" == some "your_consumer_key_here"
  let warnPass := envFalsy env "MPESA_PASSKEY" ||
    envGet env "MPESA_PASSKEY" == some "your_passkey_here"
  let envWarnings :=
    (if warnKey then ["MPESA_CONSUMER_KEY is still set to default placeholder value"] else []) ++
    (if warnPass then ["MPESA_PASSKEY is still set to default placeholder value"] else [])
  { valid := missing.length == 0 && envWarnings.length == 0
    missing := missing
    warnings := envWarnings
    shortcode := envOrNull env "MPESA_SHORTCODE"
    hasValidCredentials := missing.length == 0 && envWarnings.length == 0 }

/-- The `MPESA_CONFIG` object: raw credential values from the environment. -/
structure MpesaConfig where
  consumerKey : Option String
  consumerSecret : Option String
  shortcode : Option String
  passkey : Option String
  callbackUrl : Option String
deriving DecidableEq

/-- Construction of `MPESA_CONFIG` from the process environment. -/
def mkMpesaConfig (env : List (String × String)) : MpesaConfig :=
  ⟨envGet env "MPESA_CONSUMER_KEY", envGet env "MPESA_CONSUMER_SECRET",
   envGet env "MPESA_SHORTCODE", envGet env "MPESA_PASSKEY",
   envGet env "MPESA_CALLBACK_URL"⟩

/-- JavaScript falsiness of an optional credential string. -/
def optFalsy : Option String → Bool
  | none => true
  | some s => s == ""

/-- The module-level token cache: `let accessToken = null` and
`let tokenExpiry = null`. -/
structure TokenState where
  accessToken : Option String
  tokenExpiry : Option Int
deriving DecidableEq

/-- The guard `accessToken && tokenExpiry && Date.now() < tokenExpiry`. -/
def tokenCacheValid (st : TokenState) (now : Int) : Bool :=
  match st.accessToken, st.tokenExpiry with
  | some t, some e => t != "" && e != 0 && decide (now < e)
  | _, _ => false

/-- Outcome of one `getAccessToken()` call. -/
inductive TokenOutcome where
  | ok (token : String)
  | credsError
  | netError
deriving DecidableEq

/-- Result triple of one `getAccessToken()` call: outcome, cache state
afterwards, and whether the OAuth endpoint was contacted. -/
structure TokenCall where
  outcome : TokenOutcome
  state : TokenState
  networkCalled : Bool
deriving DecidableEq

/-- Embedding of `getAccessToken`: return the cached token while the
cache guard holds; fail fast when consumer key or secret is missing;
otherwise contact the OAuth endpoint (outcome passed in as `net`) and on
success cache the fresh token with a 50-minute expiry. -/
def getAccessToken (mc : MpesaConfig) (st : TokenState) (now : Int)
    (net : Option String) : TokenCall :=
  if tokenCacheValid st now then
    ⟨.ok (st.accessToken.getD ""), st, false⟩
  else if optFalsy mc.consumerKey || optFalsy mc.consumerSecret then
    ⟨.credsError, st, false⟩
  else
    match net with
    | some token => ⟨.ok token, ⟨some token, some (now + 50 * 60 * 1000)⟩, true⟩
    | none => ⟨.netError, st, true⟩

/-- Response of GET /test-connection. -/
inductive TestConnResp where
  | notConfigured (missing warnings : List String)
  | connected (token : String)
  | failed
deriving DecidableEq

/-- Embedding of GET /test-connection: report not-configured with the
missing variable names when `hasValidCredentials` is false, otherwise
attempt a token fetch. -/
def handleTestConnection (cfg : ConfigStatus) (mc : MpesaConfig) (st : TokenState)
    (now : Int) (net : Option String) : TestConnResp × TokenState × Bool :=
  if !cfg.hasValidCredentials then
    (.notConfigured cfg.missing cfg.warnings, st, false)
  else
    match getAccessToken mc st now net with
    | ⟨.ok t, st1, nc⟩ => (.connected t, st1, nc)
    | ⟨_, st1, nc⟩ => (.failed, st1, nc)

/-- The digit-stripping step `phone.replace(/[^0-9]/g, '')`. -/
def stripNonDigits (phone : List Char) : List Char :=
  phone.filter Char.isDigit

/-- JavaScript `String.prototype.startsWith` on character lists. -/
def startsWithChars : List Char → List Char → Bool
  | [], _ => true
  | _ :: _, [] => false
  | p :: ps, c :: cs => p == c && startsWithChars ps cs

/-- Phone normalization of POST /stkpush: strip non-digits, then map a
leading `0` to `254`, prepend `254` when absent. -/
def formatPhone (phone : List Char) : List Char :=
  let d := stripNonDigits phone
  if startsWithChars ['0'] d then "254".data ++ d.drop 1
  else if !startsWithChars "254".data d then "254".data ++ d
  else d

/-- The validation regex `^254[0-9]{9}$`: a `254` head, twelve
characters in total (3 + 9), all decimal digits. -/
def validPhone (p : List Char) : Bool :=
  startsWithChars "254".data p && p.length == 12 && p.all Char.isDigit

/-- Identifier pair returned by the provider on a successful push. -/
structure ProviderResp where
  merchantRequestID : String
  checkoutRequestID : String
deriving DecidableEq

/-- Error classes of POST /stkpush. -/
inductive StkErr where
  | configIncomplete (missing : List String)
  | missingPhoneAmount
  | invalidPhoneFormat
  | authError
  | providerError
deriving DecidableEq

/-- Result of one POST /stkpush request: the error class when the
request failed, whether any outbound network request (token fetch or
provider POST) was attempted, the token cache afterwards, the row
inserted into `mpesa_transactions`, and the normalized phone. -/
structure StkpushResult where
  error : Option StkErr
  networkCalled : Bool
  tokenState : TokenState
  insertedTxn : Option Txn
  formattedPhone : Option (List Char)

/-- The pending row INSERT of POST /stkpush. -/
def mkPendingTxn (mid cid : String) (fp : List Char) (amount branch product : JsVal) : Txn :=
  { merchant_request_id := mid, checkout_request_id := cid, phone := fp,
    amount := sqlBind amount, branch := sqlBind branch, product := sqlBind product,
    status := "pending", result_code := .jnull, result_desc := .jnull,
    mpesa_receipt := .jnull, completed_at := none }

/-- Embedding of POST /stkpush: configuration check, presence check on
phone and amount, phone normalization and validation, then token fetch,
provider POST (outcome passed in as `provider`) and insertion of the
pending transaction row. -/
def handleStkpush (cfg : ConfigStatus) (mc : MpesaConfig) (st : TokenState) (now : Int)
    (net : Option String) (provider : Option ProviderResp)
    (phone : List Char) (amount branch product : JsVal) : StkpushResult :=
  if !cfg.valid then
    ⟨some (.configIncomplete cfg.missing), false, st, none, none⟩
  else if phone.isEmpty || !amount.truthy then
    ⟨some .missingPhoneAmount, false, st, none, none⟩
  else if !validPhone (formatPhone phone) then
    ⟨some .invalidPhoneFormat, false, st, none, some (formatPhone phone)⟩
  else
    match getAccessToken mc st now net with
    | ⟨.ok _, st1, _⟩ =>
      match provider with
      | some pr =>
        ⟨none, true, st1,
         some (mkPendingTxn pr.merchantRequestID pr.checkoutRequestID (formatPhone phone)
           amount branch product),
         some (formatPhone phone)⟩
      | none => ⟨some .providerError, true, st1, none, some (formatPhone phone)⟩
    | ⟨.credsError, st1, nc⟩ => ⟨some .authError, nc, st1, none, some (formatPhone phone)⟩
    | ⟨.netError, st1, nc⟩ => ⟨some .authError, nc, st1, none, some (formatPhone phone)⟩

/-- Row shape returned by GET /transactions. -/
structure TxnView where
  phone : List Char
  amount : JsVal
  branch : JsVal
  product : JsVal
  status : String
  mpesaReceipt : JsVal
  completedAt : Option Nat

/-- The phone masking expression of GET /transactions:
`row.phone.substring(0, 6) + '****' + row.phone.substring(row.phone.length - 2)`. -/
def maskPhone (p : List Char) : List Char :=
  p.take 6 ++ "****".data ++ p.drop (p.length - 2)

/-- Embedding of the row mapping of GET /transactions. -/
def transactionsView (rows : List Txn) : List TxnView :=
  rows.map (fun r =>
    ⟨maskPhone r.phone, r.amount, r.branch, r.product, r.status,
     r.mpesa_receipt, r.completed_at⟩)

/-- The outcome mapping in the words of the specification, for comparing
the two reconciliation paths against it: status becomes completed if the
result code equals the number zero and failed otherwise. -/
def specStatusMapping (resultCode : JsVal) : String :=
  match resultCode with
  | .jnum n => if n = 0 then "completed" else "failed"
  | _ => "failed"

/-- The fields of a transaction row other than the completion timestamp. -/
def rowCore (t : Txn) :
    String × String × List Char × JsVal × JsVal × JsVal × String × JsVal × JsVal × JsVal :=
  (t.merchant_request_id, t.checkout_request_id, t.phone, t.amount, t.branch,
   t.product, t.status, t.result_code, t.result_desc, t.mpesa_receipt)

/-- A fully configured environment, used for concrete evaluations. -/
def envOK : List (String × String) :=
  [("MPESA_CONSUMER_KEY", "ck"), ("MPESA_CONSUMER_SECRET", "cs"),
   ("MPESA_SHORTCODE", "174379"), ("MPESA_PASSKEY", "pk"),
   ("MPESA_CALLBACK_URL", "https://example.com/api/mpesa/callback")]

/-- Configuration status in the fully configured environment. -/
def cfgOK : ConfigStatus := validateEnvVariables envOK

/-- Credential object in the fully configured environment. -/
def mcOK : MpesaConfig := mkMpesaConfig envOK

/-- A well-formed provider callback body for merchant request `M1` with
the given result code. -/
def cbBody (rc : Int) : JsVal :=
  .jobj [("Body", .jobj [("stkCallback", .jobj
    [("MerchantRequestID", .jstr "M1"),
     ("CheckoutRequestID", .jstr "CRQ1"),
     ("ResultCode", .jnum rc),
     ("ResultDesc", .jstr "desc")])])]

/-- A transaction row for `M1` that has already reached the terminal
status `completed`. -/
def txnDone : Txn :=
  { merchant_request_id := "M1", checkout_request_id := "CRQ1",
    phone := "254712345678".data, amount := .jnum 50, branch := .jstr "Nairobi",
    product := .jstr "Coke", status := "completed", result_code := .jnum 0,
    result_desc := .jstr "ok", mpesa_receipt := .jstr "ABC123",
    completed_at := some 3 }

/-- A pending transaction row for `M1`. -/
def txnPending : Txn :=
  mkPendingTxn "M1" "CRQ1" "254712345678".data (.jnum 50) (.jstr "Nairobi") (.jstr "Coke")

/-- A transaction row for a different merchant request id `M2`. -/
def txnOther : Txn :=
  mkPendingTxn "M2" "CRQ2" "254712345699".data (.jnum 80) (.jstr "Kisumu") (.jstr "Soap")

/-- A failed transaction row for `M1`. -/
def txnFailed : Txn :=
  { txnDone with status := "failed", result_code := .jnum 1, mpesa_receipt := .jnull }

/-- Concrete POST /stkpush run on a phone input that contains non-digit
characters (dashes) in an otherwise fully configured system. -/
def stkpushDashResult : StkpushResult :=
  handleStkpush cfgOK mcOK ⟨none, none⟩ 0 (some "tok") (some ⟨"M9", "CRQ9"⟩)
    "0712-345-678".data (.jnum 50) (.jstr "Nairobi") (.jstr "Coke")

/-! Helper lemmas. -/

/-- Mapping a function that fixes every element of a list is the identity. -/
theorem map_fix_eq_self {α : Type} (f : α → α) :
    ∀ (l : List α), (∀ a ∈ l, f a = a) → l.map f = l
  | [], _ => rfl
  | x :: xs, h => by
    rw [List.map_cons, h x (List.mem_cons_self x xs),
        map_fix_eq_self f xs (fun a ha => h a (List.mem_cons_of_mem x ha))]

/-- A row that does not match the callback identifier is untouched by the
callback UPDATE. -/
theorem applyCbUpdate_no_match (rc rd receipt mid : JsVal) (now : Nat) (t : Txn)
    (h : idMatches t.merchant_request_id mid = false) :
    applyCbUpdate rc rd receipt mid now t = t := by
  unfold applyCbUpdate
  simp [h]

/-- When no row matches the identifier, no sale event is emitted. -/
theorem saleEventFor_no_match (rc mid receipt : JsVal) (s : List Txn)
    (h : ∀ t ∈ s, idMatches t.merchant_request_id mid = false) :
    saleEventFor rc mid receipt s = none := by
  have hf : s.find? (fun t => idMatches t.merchant_request_id mid) = none :=
    List.find?_eq_none.mpr (fun x hx => by simp [h x hx])
  unfold saleEventFor
  cases rc <;> simp [hf]

/-- The response computed by `finishCallback` is always the success
acknowledgment. -/
theorem finishCallback_response (s : List Txn) (r : Except Unit (List Txn × Option SaleEvent)) :
    (finishCallback s r).response = successAck := by
  unfold finishCallback
  cases r with
  | ok p => cases p; rfl
  | error e => rfl

/-- On any request body other than `null`/`undefined`, the callback
handler runs the `try` block and wraps it with `finishCallback`. -/
theorem handleCallback_eq (reqBody : JsVal) (s : List Txn) (n : Nat)
    (h1 : reqBody ≠ JsVal.undefined) (h2 : reqBody ≠ JsVal.jnull) :
    handleCallback reqBody s n =
      Except.ok (finishCallback s (callbackTry (jsGetField reqBody "Body") s n)) := by
  cases reqBody
  case undefined => exact absurd rfl h1
  case jnull => exact absurd rfl h2
  all_goals rfl

/-! Claim theorems. -/

/-- C5: the callback path and the poll path apply the same result-code
mapping, the one the specification states — status is completed exactly
when resultCode strictly equals the number 0 and failed otherwise — so
on any row the two update paths write the same status. -/
theorem C5_reconciliation_determinism :
    (∀ rc : JsVal, cbStatusOf rc = specStatusMapping rc) ∧
    (∀ rc : JsVal, queryStatusOf rc = specStatusMapping rc) ∧
    (∀ rc rd receipt mid now t,
      (applyCbUpdate rc rd receipt mid now t).status =
        (applyQueryUpdate rc rd mid now t).status) := by
  refine ⟨fun rc => by cases rc <;> rfl, fun rc => by cases rc <;> rfl, ?_⟩
  intro rc rd receipt mid now t
  unfold applyCbUpdate applyQueryUpdate
  by_cases h : idMatches t.merchant_request_id mid = true
  · simp [h]
    cases rc <;> rfl
  · simp [Bool.not_eq_true] at h
    simp [h]

/-- C4: every callback request whose parsed body is a JSON value (which
is never `null` or `undefined` once the JSON body parser has accepted the
request) is answered with `{ResultCode: 0, ResultDesc: 'Success'}`,
whatever the payload shape and whether or not processing throws
internally. -/
theorem C4_callback_always_acks_success (reqBody : JsVal) (store : List Txn) (now : Nat)
    (h1 : reqBody ≠ JsVal.undefined) (h2 : reqBody ≠ JsVal.jnull) :
    callbackResponse reqBody store now = some successAck := by
  unfold callbackResponse
  rw [handleCallback_eq reqBody store now h1 h2]
  simp [Except.toOption, finishCallback_response]

/-- C4 witness: a malformed payload (an empty object) is still answered
with the success acknowledgment. -/
theorem C4_witness :
    callbackResponse (JsVal.jobj []) [txnDone] 4 = some successAck :=
  C4_callback_always_acks_success (JsVal.jobj []) [txnDone] 4
    (fun h => JsVal.noConfusion h) (fun h => JsVal.noConfusion h)

/-- When the callback identifier matches no stored row, the `try` block
either completes leaving the store untouched with no sale emission, or
throws. -/
theorem callbackTry_frame (bf : JsVal) (s : List Txn) (n : Nat)
    (h : ∀ t ∈ s, idMatches t.merchant_request_id
        (jsGetField (jsGetField bf "stkCallback") "MerchantRequestID") = false) :
    callbackTry bf s n = .ok (s, none) ∨ callbackTry bf s n = .error () := by
  unfold callbackTry
  by_cases hg : (bf.truthy && (jsGetField bf "stkCallback").truthy) = true
  · rw [if_pos hg]
    cases hm : extractMetaVals (jsGetField bf "stkCallback") with
    | error e => right; simp only [hm]
    | ok vals =>
      obtain ⟨_amount, receipt, _tdate, _pnum⟩ := vals
      left
      have hmap : s.map (applyCbUpdate (jsGetField (jsGetField bf "stkCallback") "ResultCode")
          (jsGetField (jsGetField bf "stkCallback") "ResultDesc") receipt
          (jsGetField (jsGetField bf "stkCallback") "MerchantRequestID") n) = s :=
        map_fix_eq_self _ s (fun t ht => applyCbUpdate_no_match _ _ _ _ _ _ (h t ht))
      simp only [hm, hmap, saleEventFor_no_match _ _ _ s h]
  · rw [if_neg hg]
    left
    rfl

/-- C6: a callback whose merchant request id matches no stored
transaction is absorbed without error: the handler completes, every
transaction row is left unchanged, no sale event is emitted, and the
success acknowledgment is still returned. -/
theorem C6_unknown_id_frame (reqBody : JsVal) (store : List Txn) (now : Nat)
    (h1 : reqBody ≠ JsVal.undefined) (h2 : reqBody ≠ JsVal.jnull)
    (h : ∀ t ∈ store, idMatches t.merchant_request_id (callbackMid reqBody) = false) :
    handleCallback reqBody store now = Except.ok ⟨store, none, successAck⟩ := by
  rw [handleCallback_eq reqBody store now h1 h2]
  have h' : ∀ t ∈ store, idMatches t.merchant_request_id
      (jsGetField (jsGetField (jsGetField reqBody "Body") "stkCallback")
        "MerchantRequestID") = false := by
    intro t ht
    exact h t ht
  rcases callbackTry_frame (jsGetField reqBody "Body") store now h' with hf | hf <;>
    rw [hf] <;> rfl

/-- C6 witness: a callback for merchant request `M1` leaves a store that
only holds a row for `M2` unchanged and is still acknowledged. -/
theorem C6_witness :
    handleCallback (cbBody 0) [txnOther] 3 = Except.ok ⟨[txnOther], none, successAck⟩ :=
  C6_unknown_id_frame (cbBody 0) [txnOther] 3
    (fun h => JsVal.noConfusion h) (fun h => JsVal.noConfusion h)
    (by decide)

/-- C1 (amended): a transaction row is inserted with status pending;
a matching callback update always writes one of the terminal statuses;
and a later callback or poll update whose mapped outcome coincides with
the row's current status leaves the status unchanged.  The unconditional
reading — a terminal status is never changed by any later notification —
fails because the UPDATE statements carry no status guard; see the
counterexample. -/
theorem C1_status_machine :
    (∀ cfg mc st now net provider phone amount branch product tx,
      (handleStkpush cfg mc st now net provider phone amount branch product).insertedTxn
        = some tx → tx.status = "pending") ∧
    (∀ rc rd receipt mid now t, idMatches t.merchant_request_id mid = true →
      ((applyCbUpdate rc rd receipt mid now t).status = "completed" ∨
       (applyCbUpdate rc rd receipt mid now t).status = "failed")) ∧
    (∀ rc rd receipt mid now t, t.status = cbStatusOf rc →
      (applyCbUpdate rc rd receipt mid now t).status = t.status) ∧
    (∀ rc rd mid now t, t.status = queryStatusOf rc →
      (applyQueryUpdate rc rd mid now t).status = t.status) := by
  refine ⟨?_, ?_, ?_, ?_⟩
  · intro cfg mc st now net provider phone amount branch product tx h
    unfold handleStkpush at h
    split at h
    · simp at h
    split at h
    · simp at h
    split at h
    · simp at h
    split at h
    · split at h
      · simp at h
        subst h
        rfl
      · simp at h
    · simp at h
    · simp at h
  · intro rc rd receipt mid now t h
    unfold applyCbUpdate
    simp only [h, if_true]
    unfold cbStatusOf
    cases rc
    case jnum n => by_cases hn : n = 0 <;> simp [hn]
    all_goals simp
  · intro rc rd receipt mid now t h
    unfold applyCbUpdate
    by_cases hm : idMatches t.merchant_request_id mid = true
    · simp only [hm, if_true]
      exact h.symm
    · simp only [Bool.not_eq_true] at hm
      simp [hm]
  · intro rc rd mid now t h
    unfold applyQueryUpdate
    by_cases hm : idMatches t.merchant_request_id mid = true
    · simp only [hm, if_true]
      exact h.symm
    · simp only [Bool.not_eq_true] at hm
      simp [hm]

/-- C1 counterexample: a transaction that already holds the terminal
status completed is flipped to failed by a later callback carrying a
non-zero result code — the UPDATE is keyed on the merchant request id
alone, with no guard on the current status. -/
theorem C1_counterexample :
    txnDone.status = "completed" ∧
    (runCallbackStore (cbBody 1) [txnDone] 7).map Txn.status = ["failed"] :=
  ⟨rfl, rfl⟩

/-- C7: while a cached token is present and unexpired the identical
token is returned with no network request; an invalid cache with
credentials present triggers a fetch that caches the fresh token with an
expiry 50 minutes ahead (conservatively below the provider's 60-minute
validity); and two calls in succession within the 50-minute cache window
make at most one network request. -/
theorem C7_token_cache :
    (∀ mc st now net t e, st.accessToken = some t → t ≠ "" →
      st.tokenExpiry = some e → 0 ≤ now → now < e →
      getAccessToken mc st now net = ⟨.ok t, st, false⟩) ∧
    (∀ mc st now tok, tokenCacheValid st now = false →
      optFalsy mc.consumerKey = false → optFalsy mc.consumerSecret = false →
      getAccessToken mc st now (some tok) =
        ⟨.ok tok, ⟨some tok, some (now + 50 * 60 * 1000)⟩, true⟩ ∧
      (50 * 60 * 1000 : Int) < 60 * 60 * 1000) ∧
    (∀ mc st now1 now2 tok1 net2, 0 ≤ now1 → now1 ≤ now2 →
      now2 < now1 + 50 * 60 * 1000 → tok1 ≠ "" →
      (getAccessToken mc st now1 (some tok1)).networkCalled.toNat +
        (getAccessToken mc (getAccessToken mc st now1 (some tok1)).state now2
          net2).networkCalled.toNat ≤ 1) := by
  have hvalid : ∀ (st : TokenState) (now : Int) (t : String) (e : Int),
      st.accessToken = some t → t ≠ "" → st.tokenExpiry = some e → 0 ≤ now → now < e →
      tokenCacheValid st now = true := by
    intro st now t e ht htne he hnow hlt
    unfold tokenCacheValid
    rw [ht, he]
    simp [htne, hlt]
    omega
  refine ⟨?_, ?_, ?_⟩
  · intro mc st now net t e ht htne he hnow hlt
    unfold getAccessToken
    rw [if_pos (hvalid st now t e ht htne he hnow hlt)]
    rw [ht]
    rfl
  · intro mc st now tok hinvalid hck hcs
    refine ⟨?_, by norm_num⟩
    unfold getAccessToken
    rw [hinvalid]
    simp [hck, hcs]
  · intro mc st now1 now2 tok1 net2 h0 h12 hwin htok
    by_cases hv1 : tokenCacheValid st now1 = true
    · have h1 : getAccessToken mc st now1 (some tok1) = ⟨.ok (st.accessToken.getD ""), st, false⟩ := by
        unfold getAccessToken
        rw [if_pos hv1]
      rw [h1]
      have : (getAccessToken mc st now2 net2).networkCalled.toNat ≤ 1 := by
        cases (getAccessToken mc st now2 net2).networkCalled <;> simp
      simpa using this
    · rw [Bool.not_eq_true] at hv1
      by_cases hck : (optFalsy mc.consumerKey || optFalsy mc.consumerSecret) = true
      · have h1 : getAccessToken mc st now1 (some tok1) = ⟨.credsError, st, false⟩ := by
          unfold getAccessToken
          rw [hv1, hck]
          rfl
        rw [h1]
        have : (getAccessToken mc st now2 net2).networkCalled.toNat ≤ 1 := by
          cases (getAccessToken mc st now2 net2).networkCalled <;> simp
        simpa using this
      · rw [Bool.not_eq_true] at hck
        have h1 : getAccessToken mc st now1 (some tok1) =
            ⟨.ok tok1, ⟨some tok1, some (now1 + 50 * 60 * 1000)⟩, true⟩ := by
          unfold getAccessToken
          rw [hv1, hck]
          rfl
        have hv2 : tokenCacheValid ⟨some tok1, some (now1 + 50 * 60 * 1000)⟩ now2 = true := by
          unfold tokenCacheValid
          simp [htok]
          constructor
          · omega
          · exact hwin
        have h2 : getAccessToken mc (⟨some tok1, some (now1 + 50 * 60 * 1000)⟩ : TokenState)
            now2 net2 = ⟨.ok tok1, ⟨some tok1, some (now1 + 50 * 60 * 1000)⟩, false⟩ := by
          unfold getAccessToken
          rw [if_pos hv2]
          rfl
        rw [h1]
        rw [h2]
        simp

/-- C7 witness: a warm-cache hit, a cold-cache fetch with the 50-minute
expiry, and two back-to-back calls making one network request. -/
theorem C7_token_cache_witness :
    getAccessToken mcOK ⟨some "tokA", some 100⟩ 5 none =
      ⟨.ok "tokA", ⟨some "tokA", some 100⟩, false⟩ ∧
    (getAccessToken mcOK ⟨none, none⟩ 0 (some "tokB") =
        ⟨.ok "tokB", ⟨some "tokB", some (0 + 50 * 60 * 1000)⟩, true⟩ ∧
      (50 * 60 * 1000 : Int) < 60 * 60 * 1000) ∧
    (getAccessToken mcOK ⟨none, none⟩ 0 (some "tokB")).networkCalled.toNat +
      (getAccessToken mcOK (getAccessToken mcOK ⟨none, none⟩ 0 (some "tokB")).state 1
        (some "tokC")).networkCalled.toNat ≤ 1 :=
  ⟨C7_token_cache.1 mcOK ⟨some "tokA", some 100⟩ 5 none "tokA" 100 rfl (by decide) rfl
      (by decide) (by decide),
   C7_token_cache.2.1 mcOK ⟨none, none⟩ 0 "tokB" (by decide) (by decide) (by decide),
   C7_token_cache.2.2 mcOK ⟨none, none⟩ 0 1 "tokB" (some "tokC") (by decide) (by decide)
      (by decide) (by decide)⟩

/-- C8: when a required credential variable is unset, the configuration
check reports invalid credentials, the missing list names exactly the
required variables that are unset or empty (in particular the unset
one), GET /test-connection answers not-configured carrying those names
without touching the network, and POST /stkpush answers a configuration
error without any network call, token-state change, or inserted row. -/
theorem C8_unconfigured (env : List (String × String)) (mc : MpesaConfig)
    (st : TokenState) (now : Int) (net : Option String) (provider : Option ProviderResp)
    (phone : List Char) (amount branch product : JsVal) (v : String)
    (hv : v ∈ requiredVars) (hunset : envGet env v = none) :
    (validateEnvVariables env).hasValidCredentials = false ∧
    v ∈ (validateEnvVariables env).missing ∧
    (∀ w, w ∈ (validateEnvVariables env).missing ↔
      w ∈ requiredVars ∧ envFalsy env w = true) ∧
    handleTestConnection (validateEnvVariables env) mc st now net =
      (.notConfigured (validateEnvVariables env).missing (validateEnvVariables env).warnings,
       st, false) ∧
    handleStkpush (validateEnvVariables env) mc st now net provider phone amount branch
        product =
      ⟨some (.configIncomplete (validateEnvVariables env).missing), false, st, none, none⟩ := by
  have hfalsy : envFalsy env v = true := by
    unfold envFalsy
    rw [hunset]
  have hmiss : (validateEnvVariables env).missing =
      requiredVars.filter (fun w => envFalsy env w) := rfl
  have hvm : v ∈ (validateEnvVariables env).missing := by
    rw [hmiss]
    exact List.mem_filter.mpr ⟨hv, hfalsy⟩
  have hlenf : ((requiredVars.filter (fun w => envFalsy env w)).length == 0) = false := by
    have hpos : 0 < (requiredVars.filter (fun w => envFalsy env w)).length :=
      List.length_pos.mpr (List.ne_nil_of_mem (hmiss ▸ hvm))
    exact beq_eq_false_iff_ne.mpr hpos.ne'
  have hcred : (validateEnvVariables env).hasValidCredentials = false := by
    simp [validateEnvVariables, hlenf]
  have hvalid : (validateEnvVariables env).valid = false := by
    simp [validateEnvVariables, hlenf]
  refine ⟨hcred, hvm, ?_, ?_, ?_⟩
  · intro w
    rw [hmiss]
    simp [List.mem_filter]
  · unfold handleTestConnection
    rw [hcred]
    rfl
  · unfold handleStkpush
    rw [hvalid]
    rfl

/-- C8 witness: the empty environment, with `MPESA_CONSUMER_KEY` as the
named unset variable. -/
theorem C8_unconfigured_witness :
    (validateEnvVariables []).hasValidCredentials = false ∧
    "MPESA_CONSUMER_KEY" ∈ (validateEnvVariables []).missing ∧
    handleTestConnection (validateEnvVariables []) (mkMpesaConfig []) ⟨none, none⟩ 0 none =
      (.notConfigured (validateEnvVariables []).missing (validateEnvVariables []).warnings,
       ⟨none, none⟩, false) ∧
    handleStkpush (validateEnvVariables []) (mkMpesaConfig []) ⟨none, none⟩ 0 none none
        "0712345678".data (JsVal.jnum 50) JsVal.undefined JsVal.undefined =
      ⟨some (.configIncomplete (validateEnvVariables []).missing), false, ⟨none, none⟩,
       none, none⟩ :=
  (fun h => ⟨h.1, h.2.1, h.2.2.2.1, h.2.2.2.2⟩)
    (C8_unconfigured [] (mkMpesaConfig []) ⟨none, none⟩ 0 none none "0712345678".data
      (JsVal.jnum 50) JsVal.undefined JsVal.undefined "MPESA_CONSUMER_KEY" (by decide) rfl)

/-- Mapping two functions that agree on every element of a list gives
the same result. -/
theorem map_congr_mem {α β : Type} (f g : α → β) :
    ∀ (l : List α), (∀ a ∈ l, f a = g a) → l.map f = l.map g
  | [], _ => rfl
  | x :: xs, h => by
    rw [List.map_cons, List.map_cons, h x (List.mem_cons_self x xs),
        map_congr_mem f g xs (fun a ha => h a (List.mem_cons_of_mem x ha))]

/-- Re-running the callback UPDATE with the same payload arguments
overwrites the row with the values of the later run. -/
theorem applyCbUpdate_comp (rc rd receipt mid : JsVal) (n1 n2 : Nat) (t : Txn) :
    applyCbUpdate rc rd receipt mid n2 (applyCbUpdate rc rd receipt mid n1 t) =
      applyCbUpdate rc rd receipt mid n2 t := by
  unfold applyCbUpdate
  by_cases h : idMatches t.merchant_request_id mid = true
  · simp [h]
  · simp only [Bool.not_eq_true] at h
    simp [h]

/-- The callback UPDATE changes only the completion timestamp when the
run time varies. -/
theorem rowCore_applyCbUpdate_time (rc rd receipt mid : JsVal) (n1 n2 : Nat) (t : Txn) :
    rowCore (applyCbUpdate rc rd receipt mid n1 t) =
      rowCore (applyCbUpdate rc rd receipt mid n2 t) := by
  unfold applyCbUpdate rowCore
  by_cases h : idMatches t.merchant_request_id mid = true
  · simp [h]
  · simp only [Bool.not_eq_true] at h
    simp [h]

/-- On a non-null body, the store reached by one callback run is the one
computed by `finishCallback` over the `try` block. -/
theorem runCallbackStore_eq (reqBody : JsVal) (s : List Txn) (n : Nat)
    (h1 : reqBody ≠ JsVal.undefined) (h2 : reqBody ≠ JsVal.jnull) :
    runCallbackStore reqBody s n =
      (finishCallback s (callbackTry (jsGetField reqBody "Body") s n)).store := by
  unfold runCallbackStore
  rw [handleCallback_eq reqBody s n h1 h2]

/-- Store part of two successive `try` runs with the same body: the
second run lands on the same store as a single run at its own time. -/
theorem finishStore_twice (bf : JsVal) (s : List Txn) (n1 n2 : Nat) :
    (finishCallback (finishCallback s (callbackTry bf s n1)).store
      (callbackTry bf (finishCallback s (callbackTry bf s n1)).store n2)).store =
    (finishCallback s (callbackTry bf s n2)).store := by
  by_cases hg : (bf.truthy && (jsGetField bf "stkCallback").truthy) = true
  · cases hm : extractMetaVals (jsGetField bf "stkCallback") with
    | error e =>
      simp [callbackTry, hg, hm, finishCallback]
    | ok vals =>
      obtain ⟨a, receipt, td, pn⟩ := vals
      simp [callbackTry, hg, hm, finishCallback, List.map_map]
      exact fun t ht => applyCbUpdate_comp _ _ _ _ n1 n2 t
  · rw [Bool.not_eq_true] at hg
    simp [callbackTry, hg, finishCallback]

/-- Store part of a `try` run at two different times: the row cores
agree, only completion timestamps can differ. -/
theorem finishStore_rowCore (bf : JsVal) (s : List Txn) (n1 n2 : Nat) :
    ((finishCallback s (callbackTry bf s n1)).store).map rowCore =
      ((finishCallback s (callbackTry bf s n2)).store).map rowCore := by
  by_cases hg : (bf.truthy && (jsGetField bf "stkCallback").truthy) = true
  · cases hm : extractMetaVals (jsGetField bf "stkCallback") with
    | error e =>
      simp [callbackTry, hg, hm, finishCallback]
    | ok vals =>
      obtain ⟨a, receipt, td, pn⟩ := vals
      simp [callbackTry, hg, hm, finishCallback, List.map_map]
      exact fun t ht => rowCore_applyCbUpdate_time _ _ _ _ n1 n2 t
  · rw [Bool.not_eq_true] at hg
    simp [callbackTry, hg, finishCallback]

/-- Applying the same callback twice lands on the store of a single
application at the later time. -/
theorem runCallbackStore_twice (reqBody : JsVal) (s : List Txn) (n1 n2 : Nat) :
    runCallbackStore reqBody (runCallbackStore reqBody s n1) n2 =
      runCallbackStore reqBody s n2 := by
  cases reqBody
  case undefined => rfl
  case jnull => rfl
  all_goals {
    rw [runCallbackStore_eq _ _ n1 (fun h => JsVal.noConfusion h) (fun h => JsVal.noConfusion h),
        runCallbackStore_eq _ _ n2 (fun h => JsVal.noConfusion h) (fun h => JsVal.noConfusion h),
        runCallbackStore_eq _ _ n2 (fun h => JsVal.noConfusion h) (fun h => JsVal.noConfusion h)]
    exact finishStore_twice _ _ n1 n2
  }

/-- C9 (amended): applying the same callback payload twice to the same
transaction store yields, for every row, the same status, result code,
result description, receipt and identifying fields as applying it once;
the completion timestamp alone reflects the latest application, so the
full row state coincides exactly when both applications carry the same
timestamp.  The claim as stated — full row state equal, completion
timestamp included — fails for distinct timestamps; see the
counterexample. -/
theorem C9_callback_idempotent_modulo_timestamp :
    (∀ reqBody store now,
      runCallbackStore reqBody (runCallbackStore reqBody store now) now =
        runCallbackStore reqBody store now) ∧
    (∀ reqBody store n1 n2,
      (runCallbackStore reqBody (runCallbackStore reqBody store n1) n2).map rowCore =
        (runCallbackStore reqBody store n1).map rowCore) := by
  constructor
  · intro reqBody store now
    exact runCallbackStore_twice reqBody store now now
  · intro reqBody store n1 n2
    rw [runCallbackStore_twice reqBody store n1 n2]
    cases reqBody
    case undefined => rfl
    case jnull => rfl
    all_goals {
      rw [runCallbackStore_eq _ _ n2 (fun h => JsVal.noConfusion h) (fun h => JsVal.noConfusion h),
          runCallbackStore_eq _ _ n1 (fun h => JsVal.noConfusion h) (fun h => JsVal.noConfusion h)]
      exact finishStore_rowCore _ _ n2 n1
    }

/-- C9 counterexample: applying the same successful callback to the same
pending transaction at times 0 and then 1 leaves completion timestamp 1,
while applying it once leaves completion timestamp 0 — the final row
states differ in the completion timestamp the claim includes. -/
theorem C9_counterexample :
    (runCallbackStore (cbBody 0) (runCallbackStore (cbBody 0) [txnPending] 0) 1).map
        Txn.completed_at = [some 1] ∧
    (runCallbackStore (cbBody 0) [txnPending] 0).map Txn.completed_at = [some 0] ∧
    ([some 1] : List (Option Nat)) ≠ [some 0] :=
  ⟨rfl, rfl, by decide⟩

/-- C10: the transaction history endpoint returns for every row the
stored phone masked as its first six characters, four asterisks, and its
last two characters, and for a stored (all-digit, 12-character) phone
this masked string is never the full phone number. -/
theorem C10_phone_masking (rows : List Txn) (r : Txn)
    (hr : r ∈ rows) (hv : validPhone r.phone = true) :
    (transactionsView rows).map TxnView.phone = rows.map (fun t => maskPhone t.phone) ∧
    maskPhone r.phone = r.phone.take 6 ++ "****".data ++ r.phone.drop 10 ∧
    maskPhone r.phone ≠ r.phone := by
  unfold validPhone at hv
  simp only [Bool.and_eq_true, beq_iff_eq] at hv
  obtain ⟨⟨hsw, hlen⟩, hall⟩ := hv
  refine ⟨?_, ?_, ?_⟩
  · simp [transactionsView, List.map_map]
  · unfold maskPhone
    rw [hlen]
  · have hstar : ('*' : Char) ∈ maskPhone r.phone := by
      unfold maskPhone
      exact List.mem_append.mpr (Or.inl (List.mem_append.mpr (Or.inr (by decide))))
    have hnd : ∀ c ∈ r.phone, Char.isDigit c = true := List.all_eq_true.mp hall
    intro heq
    rw [heq] at hstar
    exact absurd (hnd '*' hstar) (by decide)

/-- C10 witness: a stored row with phone `254712345678` is returned with
phone `254712****78`. -/
theorem C10_phone_masking_witness :
    (transactionsView [txnDone]).map TxnView.phone =
      [txnDone].map (fun t => maskPhone t.phone) ∧
    maskPhone txnDone.phone =
      txnDone.phone.take 6 ++ "****".data ++ txnDone.phone.drop 10 ∧
    maskPhone txnDone.phone ≠ txnDone.phone :=
  C10_phone_masking [txnDone] txnDone (List.mem_singleton.mpr rfl) (by decide)

/-- C2 (amended): whenever the phone input fails to normalize — after
stripping every non-digit character — to a 12-digit 254-prefixed string,
a configured POST /stkpush rejects the request with a validation error
(missing field or invalid format), contacts neither the OAuth endpoint
nor the provider, leaves the token cache alone, and inserts no
transaction row.  Presence of non-digit characters alone does not cause
rejection — they are stripped — which is what the counterexample shows. -/
theorem C2_invalid_phone_rejected (cfg : ConfigStatus) (mc : MpesaConfig) (st : TokenState)
    (now : Int) (net : Option String) (provider : Option ProviderResp)
    (phone : List Char) (amount branch product : JsVal)
    (hcfg : cfg.valid = true)
    (hinv : validPhone (formatPhone phone) = false) :
    (handleStkpush cfg mc st now net provider phone amount branch product).networkCalled
      = false ∧
    (handleStkpush cfg mc st now net provider phone amount branch product).insertedTxn
      = none ∧
    (handleStkpush cfg mc st now net provider phone amount branch product).tokenState = st ∧
    ((handleStkpush cfg mc st now net provider phone amount branch product).error
       = some StkErr.missingPhoneAmount ∨
     (handleStkpush cfg mc st now net provider phone amount branch product).error
       = some StkErr.invalidPhoneFormat) := by
  by_cases hpa : (phone.isEmpty || !amount.truthy) = true
  · simp [handleStkpush, hcfg, hpa]
  · simp only [Bool.not_eq_true] at hpa
    simp [handleStkpush, hcfg, hpa, hinv]

/-- C2 counterexample: the phone input `0712-345-678` contains non-digit
characters, yet the initiate operation accepts it (the dashes are
stripped), contacts the network, and inserts a transaction row. -/
theorem C2_counterexample :
    stkpushDashResult.error = none ∧
    stkpushDashResult.networkCalled = true ∧
    stkpushDashResult.insertedTxn.isSome = true ∧
    "0712-345-678".data.all Char.isDigit = false :=
  ⟨rfl, rfl, rfl, rfl⟩

/-- C2 witness: a 13-digit input is rejected with a validation error,
with no network call and no inserted row. -/
theorem C2_invalid_phone_witness :
    (handleStkpush cfgOK mcOK ⟨none, none⟩ 0 (some "tok") (some ⟨"M9", "CRQ9"⟩)
      "07123456789".data (JsVal.jnum 50) JsVal.undefined JsVal.undefined).networkCalled = false ∧
    (handleStkpush cfgOK mcOK ⟨none, none⟩ 0 (some "tok") (some ⟨"M9", "CRQ9"⟩)
      "07123456789".data (JsVal.jnum 50) JsVal.undefined JsVal.undefined).insertedTxn = none ∧
    (handleStkpush cfgOK mcOK ⟨none, none⟩ 0 (some "tok") (some ⟨"M9", "CRQ9"⟩)
      "07123456789".data (JsVal.jnum 50) JsVal.undefined JsVal.undefined).tokenState = ⟨none, none⟩ ∧
    ((handleStkpush cfgOK mcOK ⟨none, none⟩ 0 (some "tok") (some ⟨"M9", "CRQ9"⟩)
      "07123456789".data (JsVal.jnum 50) JsVal.undefined JsVal.undefined).error
        = some StkErr.missingPhoneAmount ∨
     (handleStkpush cfgOK mcOK ⟨none, none⟩ 0 (some "tok") (some ⟨"M9", "CRQ9"⟩)
      "07123456789".data (JsVal.jnum 50) JsVal.undefined JsVal.undefined).error
        = some StkErr.invalidPhoneFormat) :=
  C2_invalid_phone_rejected cfgOK mcOK ⟨none, none⟩ 0 (some "tok") (some ⟨"M9", "CRQ9"⟩)
    "07123456789".data (JsVal.jnum 50) JsVal.undefined JsVal.undefined (by decide) (by decide)

/-- C3: a 9-digit subscriber number that neither begins with the digit 0
nor itself begins with the country code 254 — every valid Kenyan
subscriber number (they begin with 7 or 1) is of this shape — is mapped
to the same canonical 12-digit string by all three accepted input forms,
and that canonical string passes the validation regex. -/
theorem C3_phone_normalization (X : List Char)
    (hlen : X.length = 9) (hdig : X.all Char.isDigit = true)
    (h0 : startsWithChars ['0'] X = false)
    (h254 : startsWithChars "254".data X = false) :
    formatPhone ('0' :: X) = "254".data ++ X ∧
    formatPhone ("254".data ++ X) = "254".data ++ X ∧
    formatPhone X = "254".data ++ X ∧
    validPhone ("254".data ++ X) = true := by
  have hd : "254".data = ['2', '5', '4'] := rfl
  have hdig' : ∀ c ∈ X, Char.isDigit c = true := List.all_eq_true.mp hdig
  have hfX : X.filter Char.isDigit = X := List.filter_eq_self.mpr hdig'
  have hf0 : List.filter Char.isDigit ('0' :: X) = '0' :: X :=
    List.filter_eq_self.mpr (by
      intro a ha
      rcases List.mem_cons.mp ha with h | h
      · subst h; decide
      · exact hdig' a h)
  have hf254 : List.filter Char.isDigit ('2' :: '5' :: '4' :: X) = '2' :: '5' :: '4' :: X :=
    List.filter_eq_self.mpr (by
      intro a ha
      rcases List.mem_cons.mp ha with h | h
      · subst h; decide
      rcases List.mem_cons.mp h with h | h
      · subst h; decide
      rcases List.mem_cons.mp h with h | h
      · subst h; decide
      · exact hdig' a h)
  refine ⟨?_, ?_, ?_, ?_⟩
  · simp only [formatPhone, stripNonDigits, hf0, hd]
    simp [startsWithChars]
  · show formatPhone ('2' :: '5' :: '4' :: X) = '2' :: '5' :: '4' :: X
    simp only [formatPhone, stripNonDigits, hf254, hd]
    simp [startsWithChars]
  · simp only [formatPhone, stripNonDigits, hfX, hd]
    rw [h0]
    simp [show startsWithChars ['2', '5', '4'] X = false from by rw [← hd]; exact h254]
  · show validPhone ('2' :: '5' :: '4' :: X) = true
    simp only [validPhone, hd]
    simp [startsWithChars, hlen, hdig]

/-- C3 witness: the subscriber number `712345678` in all three forms. -/
theorem C3_phone_normalization_witness :
    formatPhone ('0' :: "712345678".data) = "254".data ++ "712345678".data ∧
    formatPhone ("254".data ++ "712345678".data) = "254".data ++ "712345678".data ∧
    formatPhone "712345678".data = "254".data ++ "712345678".data ∧
    validPhone ("254".data ++ "712345678".data) = true :=
  C3_phone_normalization "712345678".data (by decide) (by decide) (by decide) (by decide)

/-- C1 witness: the pending insert, the terminal write, and the
stability of a matching re-notification, each at a concrete input. -/
theorem C1_status_machine_witness :
    (mkPendingTxn "M9" "CRQ9" (formatPhone "0712345678".data) (JsVal.jnum 50)
      (JsVal.jstr "Nairobi") (JsVal.jstr "Coke")).status = "pending" ∧
    ((applyCbUpdate (JsVal.jnum 1) (JsVal.jstr "d") JsVal.undefined (JsVal.jstr "M1") 7
        txnDone).status = "completed" ∨
     (applyCbUpdate (JsVal.jnum 1) (JsVal.jstr "d") JsVal.undefined (JsVal.jstr "M1") 7
        txnDone).status = "failed") ∧
    (applyCbUpdate (JsVal.jnum 0) (JsVal.jstr "d") JsVal.undefined (JsVal.jstr "M1") 7
        txnDone).status = txnDone.status ∧
    (applyQueryUpdate (JsVal.jnum 1) (JsVal.jstr "d") (JsVal.jstr "M1") 7
        txnFailed).status = txnFailed.status :=
  ⟨C1_status_machine.1 cfgOK mcOK ⟨none, none⟩ 0 (some "tok") (some ⟨"M9", "CRQ9"⟩)
      "0712345678".data (JsVal.jnum 50) (JsVal.jstr "Nairobi") (JsVal.jstr "Coke") _ rfl,
   C1_status_machine.2.1 (JsVal.jnum 1) (JsVal.jstr "d") JsVal.undefined (JsVal.jstr "M1") 7
      txnDone (by decide),
   C1_status_machine.2.2.1 (JsVal.jnum 0) (JsVal.jstr "d") JsVal.undefined (JsVal.jstr "M1") 7
      txnDone rfl,
   C1_status_machine.2.2.2 (JsVal.jnum 1) (JsVal.jstr "d") (JsVal.jstr "M1") 7
      txnFailed rfl⟩
